import Mathlib

/-!
Verification of the style dependency resolution and native-update engine of
react-native-unistyles, as described by its specification and documentation.

The repository ships the documentation of the engine (variants, scoped themes,
babel dependency detection) together with the React components; the engine
itself (the C++ parser / core) is not part of the TypeScript sources, so its
operations are modelled from the specification, faithful to its words, and the
shipped `NamedTheme.tsx` component is embedded directly.
-/

namespace Unistyles

/-- A style payload: a finite list of (property name, property value) pairs. -/
abbrev StyleProps := List (String × String)

/-- A value supplied for one variant group in a `useVariants` selection:
either a string key or a boolean. -/
inductive VariantValue where
  | str (s : String)
  | bool (b : Bool)
deriving DecidableEq, Repr

/-- A variant group: a named set of mutually exclusive keyed sub-styles
(possibly containing `"true"`, `"false"` and `"default"` keys). -/
structure VariantGroup where
  name : String
  subStyles : List (String × StyleProps)
deriving DecidableEq, Repr

/-- Association-list lookup of a sub-style key inside a variant group. -/
def lookupKey (subStyles : List (String × StyleProps)) (k : String) :
    Option StyleProps :=
  match subStyles with
  | [] => none
  | (k', v) :: rest => if k' = k then some v else lookupKey rest k

/-- A selection passed to `useVariants`: a mapping from group name to an
optional value. A field bound to `none` models a field explicitly present
with the value `undefined` (as in `useVariants({color: undefined})`). -/
abbrev Selection := List (String × Option VariantValue)

/-- Looking a group name up in a selection, with JavaScript semantics:
a field that is absent and a field explicitly bound to `undefined` are
indistinguishable (`selection[group]` is `undefined` in both cases). -/
def lookupSelection (sel : Selection) (group : String) : Option VariantValue :=
  match sel with
  | [] => none
  | (g, v) :: rest => if g = group then v else lookupSelection rest group

/-- Modelled from the spec: the Variant Resolver of §4.4 (implemented by the
C++ parser, which is not among the TypeScript sources; only its documentation
is). Resolution of one group against a selection: if the selection for the
group is absent or `undefined`, use the group's `default` sub-style if
present, else contribute no properties; if it is a boolean, look up the exact
`"true"`/`"false"` key with no fallback to `default`; if it is a string, look
up that exact key (the literal string `"default"` therefore finds the
`default` sub-style). Unmatched combinations contribute no properties. -/
def resolveGroup (g : VariantGroup) (sel : Selection) : StyleProps :=
  match lookupSelection sel g.name with
  | none => (lookupKey g.subStyles "default").getD []
  | some (.bool b) => (lookupKey g.subStyles (if b then "true" else "false")).getD []
  | some (.str s) => (lookupKey g.subStyles s).getD []

/-- Modelled from the spec: whole-block variant resolution. The outer
`Option Selection` distinguishes "`useVariants` was never invoked" (`none`)
from an explicit call (`some sel`, where `sel` may be empty). When
`useVariants` is never invoked the parser ignores the variants block entirely
and contributes no variant-derived properties; an explicit call resolves
every group of the block against the selection. -/
def resolveVariants (block : List VariantGroup) :
    Option Selection → StyleProps
  | none => []
  | some sel => (block.map (fun g => resolveGroup g sel)).flatten

/-- The variant-derived properties every group of a block contributes when an
explicit call supplies no value for it: its `default` sub-style if present,
else nothing. -/
def defaultContribution (block : List VariantGroup) : StyleProps :=
  (block.map (fun g => (lookupKey g.subStyles "default").getD [])).flatten

/-- An ambient fact a style key may depend on (a dependency tag). The babel
plugin classifies each style's dependencies ahead of time; the engine only
consumes the declared set. -/
inductive Fact where
  | theme
  | colorScheme
  | screen
  | insets
  | fontScale
  | breakpoint
deriving DecidableEq, Repr

/-- Modelled from the spec: per-style-key dependency bookkeeping of the Style
Registry (§3 DependencySet, §4.5), whose C++ implementation is not among the
TypeScript sources. `deps` is the declared dependency set of the key and
`computeCount` the number of times its value has been computed. -/
structure StyleKeyState where
  deps : List Fact
  computeCount : Nat
deriving DecidableEq, Repr

/-- Initial evaluation of a style key: the value is computed once at
`StyleSheet.create` time. -/
def initialEvaluation (deps : List Fact) : StyleKeyState :=
  ⟨deps, 1⟩

/-- Modelled from the spec: one published state-change event carrying the set
of changed facts. The key is recomputed exactly when its declared dependency
set intersects the changed facts. -/
def onStateChange (s : StyleKeyState) (changed : List Fact) : StyleKeyState :=
  if s.deps.any (fun d => changed.contains d) then ⟨s.deps, s.computeCount + 1⟩
  else s

/-- Publishing a whole sequence of state-change events, in order. -/
def publishEvents (s : StyleKeyState) (events : List (List Fact)) :
    StyleKeyState :=
  events.foldl onStateChange s

/-- The color scheme reported by the host. -/
inductive ColorScheme where
  | light
  | dark
deriving DecidableEq, Repr

/-- The opposite color scheme. -/
def flipScheme : ColorScheme → ColorScheme
  | .light => .dark
  | .dark => .light

/-- The registered adaptive themes: the theme names the runtime binds to the
`light` and `dark` color schemes. -/
structure ThemeRegistry where
  lightTheme : String
  darkTheme : String
deriving DecidableEq, Repr

/-- The ambient adaptive theme: the registered theme for the current ambient
color scheme. -/
def adaptiveTheme (reg : ThemeRegistry) : ColorScheme → String
  | .light => reg.lightTheme
  | .dark => reg.darkTheme

/-- A frame of the Scoped Theme Stack: a named theme override, an
inverted-adaptive override, or a reset frame. -/
inductive ScopedThemeFrame where
  | named (themeName : String)
  | invertedAdaptive
  | reset
deriving DecidableEq, Repr

/-- Modelled from the spec: the override a frame contributes, resolved
against the CURRENT ambient color scheme (§4.2): a named frame contributes
its fixed theme; an `invertedAdaptive` frame contributes the registered
theme of the flipped ambient scheme, recomputed at every query rather than
cached at push time; a reset frame contributes no override. -/
def frameOverride (reg : ThemeRegistry) (scheme : ColorScheme) :
    ScopedThemeFrame → Option String
  | .named n => some n
  | .invertedAdaptive => some (adaptiveTheme reg (flipScheme scheme))
  | .reset => none

/-- Modelled from the spec: `currentEffectiveTheme` of the Scoped Theme Stack
(§4.2; the stack lives in the C++ core, not among the TypeScript sources).
It scans from the top and stops at the first frame: the ambient adaptive
theme when the stack is empty or the top frame is a reset frame, otherwise
the top frame's override. -/
def currentEffectiveTheme (reg : ThemeRegistry) (scheme : ColorScheme)
    (stack : List ScopedThemeFrame) : String :=
  match stack with
  | [] => adaptiveTheme reg scheme
  | f :: _ => (frameOverride reg scheme f).getD (adaptiveTheme reg scheme)

/-- Pushing a frame when a scoping construct begins evaluating its subtree. -/
def pushFrame (stack : List ScopedThemeFrame) (f : ScopedThemeFrame) :
    List ScopedThemeFrame :=
  f :: stack

/-- Popping the top frame when the subtree finishes evaluating. -/
def popFrame (stack : List ScopedThemeFrame) : List ScopedThemeFrame :=
  stack.tail

/-- One operation on the Scoped Theme Stack during a render pass. -/
inductive StackOp where
  | push (f : ScopedThemeFrame)
  | pop
deriving DecidableEq, Repr

/-- Applying one stack operation. -/
def applyOp (stack : List ScopedThemeFrame) : StackOp → List ScopedThemeFrame
  | .push f => pushFrame stack f
  | .pop => popFrame stack

/-- Running a sequence of stack operations, in order. -/
def runOps (stack : List ScopedThemeFrame) (ops : List StackOp) :
    List ScopedThemeFrame :=
  ops.foldl applyOp stack

/-- A balanced sequence of push/pop operations: each push is matched by a
later pop, with strict nesting (§4.2). -/
inductive BalancedOps : List StackOp → Prop where
  | nil : BalancedOps []
  | scope (f : ScopedThemeFrame) {ops : List StackOp} (h : BalancedOps ops) :
      BalancedOps ([.push f] ++ ops ++ [.pop])
  | seq {ops ops' : List StackOp} (h : BalancedOps ops)
      (h' : BalancedOps ops') : BalancedOps (ops ++ ops')

/-- A configuration error, reported synchronously to the caller and non-fatal
to the engine (§7). -/
inductive ConfigError where
  | mutualExclusivity
deriving DecidableEq, Repr

/-- Modelled from the spec: construction of a scoped-theme frame from the
`ScopedTheme` component's props (§7(d); the component implementation is not
among the TypeScript sources). A named theme together with
`invertedAdaptive` is mutually exclusive and rejected at construction time;
a frame with neither override is a reset frame (`<ScopedTheme reset>` passes
neither a name nor `invertedAdaptive`). -/
def mkScopedThemeFrame (name : Option String) (invAdaptive : Bool) :
    Except ConfigError ScopedThemeFrame :=
  match name, invAdaptive with
  | some _, true => .error .mutualExclusivity
  | some n, false => .ok (.named n)
  | none, true => .ok .invertedAdaptive
  | none, false => .ok .reset

/-- Modelled from the spec: the Node Binding Table and the Update Dispatcher
(§4.5, §5; implemented in the C++ core, not among the TypeScript sources).
`bound` holds the live binding ids, `pending` the in-flight recompute writes
and `written` the writes that actually landed on native nodes, in order. -/
structure DispatcherState where
  bound : List Nat
  pending : List (Nat × StyleProps)
  written : List (Nat × StyleProps)
deriving DecidableEq, Repr

/-- An operation observed by the dispatcher: binding a node, a state change
scheduling a recompute write for a binding, unbinding, or committing the
oldest in-flight write to its native node. -/
inductive DispatcherOp where
  | bind (id : Nat)
  | stateChange (id : Nat) (payload : StyleProps)
  | unbind (id : Nat)
  | commit
deriving DecidableEq, Repr

/-- Modelled from the spec: one dispatcher transition. A state change for a
live binding enqueues a pending write; `commit` checks binding liveness
immediately before writing and silently drops (never fails on) a write whose
binding has been unbound. -/
def dispatchStep (s : DispatcherState) : DispatcherOp → DispatcherState
  | .bind id => ⟨id :: s.bound, s.pending, s.written⟩
  | .stateChange id payload =>
      if s.bound.contains id then ⟨s.bound, s.pending ++ [(id, payload)], s.written⟩
      else s
  | .unbind id => ⟨s.bound.filter (fun b => b != id), s.pending, s.written⟩
  | .commit =>
      match s.pending with
      | [] => s
      | (id, payload) :: rest =>
          if s.bound.contains id then ⟨s.bound, rest, s.written ++ [(id, payload)]⟩
          else ⟨s.bound, rest, s.written⟩

/-- Running a sequence of dispatcher operations, in order. -/
def runDispatcher (s : DispatcherState) (ops : List DispatcherOp) :
    DispatcherState :=
  ops.foldl dispatchStep s

/-- The payloads a given native node has received, in order. -/
def writesTo (s : DispatcherState) (id : Nat) : List StyleProps :=
  (s.written.filter (fun w => w.1 == id)).map (fun w => w.2)

/-- The dispatcher state before any binding exists. -/
def emptyDispatcher : DispatcherState :=
  ⟨[], [], []⟩

/-- Shallow embedding of the React elements relevant to `NamedTheme`: an
`ApplyScopedTheme` element carrying an optional scoped-theme name, a
fragment, or any other element (opaque for this development). -/
inductive ReactNode where
  | applyScopedTheme (name : Option String)
  | fragment (children : List ReactNode)
  | element (id : Nat)
deriving Repr

/-- Embedding of the `NamedTheme` component
(src/src/components/NamedTheme.tsx): it returns a `React.Fragment` whose
children are an `ApplyScopedTheme` element carrying `name` (key `apply`),
the unmodified `children`, and an `ApplyScopedTheme` element carrying
`previousScopedTheme` (key `dispose`). -/
def NamedTheme (name : Option String) (children : ReactNode)
    (previousScopedTheme : Option String) : ReactNode :=
  .fragment [.applyScopedTheme name, children,
    .applyScopedTheme previousScopedTheme]

/-- The scoped theme active after a sequence of sibling elements renders:
each `ApplyScopedTheme` element replaces the active scoped theme (`none`
meaning ambient, i.e. no enclosing scope); other elements leave it alone. -/
def activeScopedThemeAfter (init : Option String) :
    List ReactNode → Option String
  | [] => init
  | .applyScopedTheme n :: rest => activeScopedThemeAfter n rest
  | .fragment _ :: rest => activeScopedThemeAfter init rest
  | .element _ :: rest => activeScopedThemeAfter init rest

end Unistyles

namespace Unistyles

/-- For an empty selection, every group resolves to its default contribution. -/
theorem resolveGroup_empty (g : VariantGroup) :
    resolveGroup g [] = (lookupKey g.subStyles "default").getD [] := by
  simp [resolveGroup, lookupSelection]

/-- C1: if `useVariants` is never invoked for a style block that declares
variants, the resolved style contributes no variant-derived properties at all
(the default sub-style is not implicitly applied), whereas an explicit call
with an empty selection, `useVariants({})` or `useVariants(undefined)`
(both reaching the resolver as an empty selection), applies the default
sub-style of every group that has one; this holds for every block. -/
theorem useVariants_asymmetry (block : List VariantGroup) :
    resolveVariants block none = [] ∧
      resolveVariants block (some []) = defaultContribution block := by
  refine ⟨rfl, ?_⟩
  unfold resolveVariants defaultContribution
  induction block with
  | nil => rfl
  | cons g rest ih =>
      simp only [List.map_cons, List.flatten_cons, resolveGroup_empty, ih]

/-- C2: for every variant group, resolving with the empty selection yields
the same result as resolving with a selection binding any single field
explicitly to `undefined`, and both results equal the group's `default`
sub-style when one is present and contribute no properties otherwise. -/
theorem resolve_empty_eq_undefined (g : VariantGroup) (field : String) :
    resolveGroup g [] = resolveGroup g [(field, none)] ∧
      resolveGroup g [] = (lookupKey g.subStyles "default").getD [] := by
  refine ⟨?_, resolveGroup_empty g⟩
  by_cases h : field = g.name <;>
    simp [resolveGroup, lookupSelection, h]

/-- C3: for every variant group that defines an explicit `false` sub-style,
resolving the group with an explicit boolean `false` selection applies the
`false` sub-style — never the `default` sub-style's properties. -/
theorem resolve_false_never_default (g : VariantGroup) (fs : StyleProps)
    (h : lookupKey g.subStyles "false" = some fs) :
    resolveGroup g [(g.name, some (.bool false))] = fs := by
  unfold resolveGroup lookupSelection
  simp [h]

/-- Witness for C3: a concrete group whose `false` and `default` sub-styles
differ resolves an explicit `false` selection to the `false` sub-style,
which is distinct from the `default` sub-style's properties. -/
theorem resolve_false_never_default_witness :
    resolveGroup ⟨"color", [("false", [("backgroundColor", "disabled")]),
        ("default", [("backgroundColor", "barbie")])]⟩
        [("color", some (.bool false))]
      = [("backgroundColor", "disabled")] ∧
    [("backgroundColor", "disabled")] ≠ [("backgroundColor", "barbie")] :=
  ⟨resolve_false_never_default
      ⟨"color", [("false", [("backgroundColor", "disabled")]),
        ("default", [("backgroundColor", "barbie")])]⟩
      [("backgroundColor", "disabled")] (by decide), by decide⟩

/-- C4: a style key whose declared dependency set is empty is computed
exactly once at initial evaluation and never recomputed afterwards,
regardless of how many state-change events are published. -/
theorem empty_deps_never_recomputed (events : List (List Fact)) :
    publishEvents (initialEvaluation []) events = initialEvaluation [] ∧
      (publishEvents (initialEvaluation []) events).computeCount = 1 := by
  have key : publishEvents (initialEvaluation []) events = initialEvaluation [] := by
    induction events with
    | nil => rfl
    | cons e rest ih =>
        have step : onStateChange (initialEvaluation []) e = initialEvaluation [] := by
          simp [onStateChange, initialEvaluation]
        simpa [publishEvents, step] using ih
  exact ⟨key, by rw [key]; rfl⟩

/-- C5: with an `invertedAdaptive` frame on top of the stack, the effective
theme is the registered theme of the flipped ambient color scheme: ambient
`dark` resolves to the registered light theme and ambient `light` to the
registered dark theme; toggling the ambient scheme while the very same stack
remains in place flips the effective theme without any push or pop, so the
override is a function of the current scheme, not cached at push time. -/
theorem invertedAdaptive_flips_ambient (reg : ThemeRegistry)
    (scheme : ColorScheme) (rest : List ScopedThemeFrame) :
    currentEffectiveTheme reg scheme (.invertedAdaptive :: rest)
        = adaptiveTheme reg (flipScheme scheme) ∧
      currentEffectiveTheme reg .dark (.invertedAdaptive :: rest)
        = reg.lightTheme ∧
      currentEffectiveTheme reg .light (.invertedAdaptive :: rest)
        = reg.darkTheme ∧
      currentEffectiveTheme reg (flipScheme scheme) (.invertedAdaptive :: rest)
        = adaptiveTheme reg scheme := by
  refine ⟨rfl, rfl, rfl, ?_⟩
  cases scheme <;> rfl

/-- C6: `currentEffectiveTheme` inspects only the topmost frame — the result
for a stack with top `f` is independent of everything below `f`; it returns
the ambient theme when the stack is empty or the top frame is a reset frame,
and otherwise the top frame's override. In particular, after
push(dark), push(light), push(reset) the query returns the ambient theme,
after one pop it returns `light`, after another pop `dark`, and after the
final pop the ambient theme again. -/
theorem effectiveTheme_top_frame_only (reg : ThemeRegistry)
    (scheme : ColorScheme) (f : ScopedThemeFrame)
    (rest rest' : List ScopedThemeFrame) :
    currentEffectiveTheme reg scheme (f :: rest)
        = currentEffectiveTheme reg scheme (f :: rest') ∧
      currentEffectiveTheme reg scheme [] = adaptiveTheme reg scheme ∧
      currentEffectiveTheme reg scheme (.reset :: rest)
        = adaptiveTheme reg scheme ∧
      (let s3 := pushFrame (pushFrame (pushFrame [] (.named "dark"))
        (.named "light")) .reset
      currentEffectiveTheme reg scheme s3 = adaptiveTheme reg scheme ∧
        currentEffectiveTheme reg scheme (popFrame s3) = "light" ∧
        currentEffectiveTheme reg scheme (popFrame (popFrame s3)) = "dark" ∧
        currentEffectiveTheme reg scheme (popFrame (popFrame (popFrame s3)))
          = adaptiveTheme reg scheme) :=
  ⟨rfl, rfl, rfl, rfl, rfl, rfl, rfl⟩

/-- Helper for C7: a balanced sequence of push/pop operations restores any
starting stack exactly. -/
theorem runOps_balanced {ops : List StackOp} (h : BalancedOps ops) :
    ∀ stack, runOps stack ops = stack := by
  induction h with
  | nil => intro stack; rfl
  | scope f h ih =>
      intro stack
      simp only [runOps, List.foldl_append] at *
      have hpush : List.foldl applyOp stack [StackOp.push f] = pushFrame stack f :=
        rfl
      rw [hpush, ih (pushFrame stack f)]
      rfl
  | seq h h' ih ih' =>
      intro stack
      simp only [runOps, List.foldl_append] at *
      rw [ih stack, ih' stack]

/-- C7: after any balanced sequence of push and pop operations starting from
the empty stack, `currentEffectiveTheme` returns exactly the ambient theme;
moreover a balanced subtree evaluation leaves any surrounding stack exactly
as it was, so siblings evaluated after a popped scope observe the stack as
if the popped frame never existed. -/
theorem balanced_ops_restore_ambient (reg : ThemeRegistry)
    (scheme : ColorScheme) (ops : List StackOp) (h : BalancedOps ops) :
    currentEffectiveTheme reg scheme (runOps [] ops)
        = adaptiveTheme reg scheme ∧
      ∀ stack, runOps stack ops = stack := by
  refine ⟨?_, runOps_balanced h⟩
  rw [runOps_balanced h []]
  rfl

/-- Witness for C7: the balanced sequence
push(dark), push(light), pop, pop evaluated from the empty stack yields the
ambient theme and restores a surrounding stack. -/
theorem balanced_ops_restore_ambient_witness :
    currentEffectiveTheme ⟨"day", "night"⟩ .light
        (runOps [] [.push (.named "dark"), .push (.named "light"), .pop, .pop])
        = adaptiveTheme ⟨"day", "night"⟩ .light ∧
      ∀ stack, runOps stack
        [.push (.named "dark"), .push (.named "light"), .pop, .pop] = stack :=
  balanced_ops_restore_ambient ⟨"day", "night"⟩ .light
    [.push (.named "dark"), .push (.named "light"), .pop, .pop]
    (BalancedOps.scope (.named "dark")
      (BalancedOps.scope (.named "light") BalancedOps.nil))

/-- C8: the dispatcher checks binding liveness immediately before writing —
committing an in-flight write for a binding that is no longer bound changes
nothing in what its node has received (the write is dropped silently, the
step never fails); in particular in the scenario bind, state change
scheduling a write, unbind before the write completes, commit, the native
node never receives the write. -/
theorem unbind_drops_pending_write (s : DispatcherState) (id : Nat)
    (payload : StyleProps) (h : s.bound.contains id = false) :
    writesTo (dispatchStep s .commit) id = writesTo s id ∧
      writesTo (runDispatcher emptyDispatcher
        [.bind 7, .stateChange 7 payload, .unbind 7, .commit]) 7 = [] := by
  constructor
  · have hstep : ∀ t : DispatcherState, dispatchStep t .commit =
        match t.pending with
        | [] => t
        | (id', p) :: rest =>
            if t.bound.contains id' then
              ⟨t.bound, rest, t.written ++ [(id', p)]⟩
            else ⟨t.bound, rest, t.written⟩ :=
      fun _ => rfl
    rw [hstep s]
    cases hp : s.pending with
    | nil => rfl
    | cons hd rest =>
        obtain ⟨id', p⟩ := hd
        show writesTo (if s.bound.contains id' then
            (⟨s.bound, rest, s.written ++ [(id', p)]⟩ : DispatcherState)
            else ⟨s.bound, rest, s.written⟩) id = writesTo s id
        by_cases hid : id' = id
        · subst hid
          rw [if_neg (fun hc => Bool.false_ne_true (h ▸ hc))]
          rfl
        · have hne : (id' == id) = false := by
            rw [beq_eq_false_iff_ne]
            exact hid
          by_cases hb : s.bound.contains id' = true
          · rw [if_pos hb]
            simp [writesTo, List.filter_append, hne]
          · rw [if_neg hb]
            rfl
  · rfl

/-- Witness for C8: a dispatcher state holding an in-flight write for an
already-unbound binding 0 commits without writing anything to node 0, and in
the bind, state change, unbind, commit scenario node 7 receives no write. -/
theorem unbind_drops_pending_write_witness :
    writesTo (dispatchStep ⟨[1], [(0, [("width", "100")])], []⟩ .commit) 0
        = writesTo ⟨[1], [(0, [("width", "100")])], []⟩ 0 ∧
      writesTo (runDispatcher emptyDispatcher
        [.bind 7, .stateChange 7 [("width", "100")], .unbind 7, .commit]) 7
        = [] :=
  unbind_drops_pending_write ⟨[1], [(0, [("width", "100")])], []⟩ 0
    [("width", "100")] (by decide)

/-- C9: a scoped-theme frame specifying both a named theme override and
`invertedAdaptive` is rejected at frame-construction time as a configuration
error, returned synchronously to the caller; every other combination of the
two props constructs a frame, and no constructible frame carries both
options (a frame is exactly one of named, invertedAdaptive or reset). -/
theorem scoped_frame_mutual_exclusivity (n : String) :
    mkScopedThemeFrame (some n) true = .error .mutualExclusivity ∧
      mkScopedThemeFrame (some n) false = .ok (.named n) ∧
      mkScopedThemeFrame none true = .ok .invertedAdaptive ∧
      mkScopedThemeFrame none false = .ok .reset :=
  ⟨rfl, rfl, rfl, rfl⟩

/-- C10: for every render of `NamedTheme`, with any props (including an
`undefined` name), the component emits exactly a fragment holding an
`ApplyScopedTheme` element carrying the frame's name, then the unmodified
children with no added wrapper, then an `ApplyScopedTheme` element carrying
`previousScopedTheme`; consequently, whatever scoped theme was active before
the frame and whatever the children do, after the emitted sequence the
active scoped theme is exactly `previousScopedTheme` (ambient when there was
no enclosing scope). -/
theorem namedTheme_emits_apply_children_dispose (name : Option String)
    (children : ReactNode) (previousScopedTheme : Option String) :
    NamedTheme name children previousScopedTheme
        = .fragment ([.applyScopedTheme name] ++ [children]
            ++ [.applyScopedTheme previousScopedTheme]) ∧
      ∀ init, activeScopedThemeAfter init
          [.applyScopedTheme name, children,
            .applyScopedTheme previousScopedTheme]
        = previousScopedTheme := by
  refine ⟨rfl, fun init => ?_⟩
  cases children <;> rfl

end Unistyles
